import Mathlib

set_option autoImplicit false

/-!
Verification of the weather-fetch pipeline of `ai_app/views.py`
(`ChatView`): numeric sanitization (`clean_value`), output validation
(`validate_json`), and the GET handler (`ChatView.get`) with its
primary (marine) fetch, fallback fetch, retry/cache configuration and
error dispatch.

Modelling conventions (shallow embedding):
* Python floats are modelled by `PFloat`: either an exact rational
  (`finite`), `nan`, `inf` or `ninf`.  Rounding of decimal literals to
  binary float64 is not modelled; no claim depends on it.
* Python values that can appear in the handler are modelled by `PyVal`
  (None, bool, int, float, str, dicts, plus `pyObj` standing for any
  object that is not JSON-serializable).
* Exceptions are modelled by `PyExc`: a class tag plus a message.  The
  class tags record the Python subclass facts the handler's dispatch
  depends on: `json.JSONDecodeError` (raised by `requests.Response.json`
  on an unparseable body) is a subclass of `ValueError`; the transport
  and HTTP-status exceptions of `requests` are not `ValueError` nor
  `RuntimeError`.
* Network effects are abstracted into an `Env` record giving the outcome
  of the primary (marine) fetch and of the fallback fetch for the
  request's coordinates; the handler returns, next to its result, the
  list of upstream calls it performed.
-/

/-- Model of a Python float: an exact rational, NaN, or a signed infinity. -/
inductive PFloat where
  | finite (q : ℚ)
  | nan
  | inf
  | ninf
deriving DecidableEq, Repr

/-- Negation of a modelled float (used for a leading minus sign in `float()`). -/
def PFloat.neg : PFloat → PFloat
  | .finite q => .finite (-q)
  | .nan => .nan
  | .inf => .ninf
  | .ninf => .inf

mutual
/-- Model of the Python values flowing through the handler.  `pyObj` stands
for any value that is not JSON-serializable (e.g. an arbitrary object). -/
inductive PyVal where
  | pyNone
  | pyBool (b : Bool)
  | pyInt (n : ℤ)
  | pyFloat (f : PFloat)
  | pyStr (s : String)
  | pyDict (fields : PyFields)
  | pyObj

/-- The key/value entries of a modelled Python dict. -/
inductive PyFields where
  | nil
  | cons (key : String) (value : PyVal) (rest : PyFields)
end

/-- Build dict entries from a list of pairs (literal-dict notation helper). -/
def fieldsOf : List (String × PyVal) → PyFields
  | [] => .nil
  | (k, v) :: rest => .cons k v (fieldsOf rest)

/-- First value stored under a key, if any (Python dicts have unique keys). -/
def PyFields.lookup : PyFields → String → Option PyVal
  | .nil, _ => none
  | .cons k v rest, key => if k = key then some v else rest.lookup key

/-- Model of Python `dict.get(key, default)`. -/
def PyFields.getD (fs : PyFields) (key : String) (dflt : PyVal) : PyVal :=
  (fs.lookup key).getD dflt

/-- The list of keys of the dict entries, in order. -/
def PyFields.keys : PyFields → List String
  | .nil => []
  | .cons k _ rest => k :: rest.keys

mutual
/-- Whether `json.dumps` succeeds on the value.  Only `pyObj` (a value that
is not of a JSON-encodable type) makes it fail: `json.dumps` accepts NaN and
infinities by default (`allow_nan=True`), and cyclic data cannot occur in
inductive values. -/
def PyVal.serializable : PyVal → Bool
  | .pyObj => false
  | .pyDict fs => fs.serializableF
  | _ => true

/-- All values of the dict entries are serializable. -/
def PyFields.serializableF : PyFields → Bool
  | .nil => true
  | .cons _ v rest => v.serializable && rest.serializableF
end

/-- The exception classes the handler's dispatch distinguishes.
`jsonDecodeError` models `json.JSONDecodeError`, a subclass of `ValueError`
(this is what `requests.Response.json` raises on an unparseable body);
`connectionError`, `timeoutError` and `httpError` model the `requests`
transport/status exceptions, which are neither `ValueError` nor
`RuntimeError`. -/
inductive ExcClass where
  | valueError
  | jsonDecodeError
  | typeError
  | runtimeError
  | connectionError
  | timeoutError
  | httpError
  | attributeError
  | otherExc
deriving DecidableEq, Repr

/-- Model of `isinstance(e, ValueError)`: true for `ValueError` itself and its
subclass `json.JSONDecodeError`. -/
def ExcClass.isValueError : ExcClass → Bool
  | .valueError => true
  | .jsonDecodeError => true
  | _ => false

/-- Model of `isinstance(e, RuntimeError)`. -/
def ExcClass.isRuntimeError : ExcClass → Bool
  | .runtimeError => true
  | _ => false

/-- A modelled Python exception: class tag plus `str(e)`. -/
structure PyExc where
  cls : ExcClass
  msg : String
deriving DecidableEq, Repr

/-- views.py:29-41, `ChatView.clean_value`.  `isinstance(value, (int, float))`
is true for `bool` as well, since Python `bool` is a subclass of `int`;
`float(value)` maps `True ↦ 1.0`, `False ↦ 0.0`, `int n ↦ n.0`. -/
def clean_value : PyVal → Option PFloat
  | .pyBool b => if |(if b then (1 : ℚ) else 0)| > 100000 then none
                 else some (.finite (if b then 1 else 0))
  | .pyInt n => if |n| > 100000 then none else some (.finite (n : ℚ))
  | .pyFloat .nan => none
  | .pyFloat .inf => none
  | .pyFloat .ninf => none
  | .pyFloat (.finite q) => if |q| > 100000 then none else some (.finite q)
  | _ => none

/-- Log events emitted by the modelled code (only the `logger.error` of
`validate_json` matters to the claims; it logs the offending payload). -/
inductive LogEvent where
  | logNonSerializable (offending : PyVal)

/-- Model of `json.dumps data` as used in views.py:49: succeeds exactly on
serializable values; on a non-JSON-encodable object it raises `TypeError`. -/
def json_dumps (data : PyVal) : Except PyExc Unit :=
  if data.serializable then .ok ()
  else .error ⟨.typeError, "Object of type object is not JSON serializable"⟩

/-- views.py:43-53, `ChatView.validate_json`: try `json.dumps(data)`; on
`(TypeError, ValueError)` log the offending payload and return the empty
dict.  The second component is the list of log events (the handler discards
it, matching the logger side effect). -/
def validate_json (data : PyVal) : PyVal × List LogEvent :=
  match json_dumps data with
  | .ok _ => (data, [])
  | .error _ => (.pyDict .nil, [.logNonSerializable data])

example : clean_value (.pyFloat (.finite 3)) = some (.finite 3) := by decide
example : clean_value (.pyFloat .nan) = none := by decide
example : clean_value (.pyFloat (.finite 200000)) = none := by decide
example : clean_value (.pyBool true) = some (.finite 1) := by decide
example : clean_value (.pyStr "x") = none := by decide
example : (validate_json (.pyDict (fieldsOf [("a", .pyObj)]))).1 = .pyDict .nil := by rfl
example : (validate_json (.pyInt 3)).1 = .pyInt 3 := by rfl

/-! ### The Python `float()` builtin on strings

Modelled for the inputs the handler can see: plain decimal literals with
optional sign, fraction and exponent, and the named specials `nan`, `inf`,
`infinity` (case-insensitive, surrounding whitespace stripped).  Any other
string raises `ValueError`, as `float("abc")` does. -/

/-- Numeric value of a digit string (caller checks the characters). -/
def digitsVal (cs : List Char) : ℕ :=
  cs.foldl (fun a c => 10 * a + (c.toNat - 48)) 0

/-- Nonempty and all characters are decimal digits. -/
def isDigits (cs : List Char) : Bool :=
  !cs.isEmpty && cs.all Char.isDigit

/-- Parse `digits`, `digits.digits`, `digits.` or `.digits` as a rational. -/
def parseMantissa (cs : List Char) : Option ℚ :=
  match cs.splitOn '.' with
  | [w] => if isDigits w then some (digitsVal w) else none
  | [w, f] =>
      if w.isEmpty && f.isEmpty then none
      else if w.all Char.isDigit && f.all Char.isDigit then
        some ((digitsVal w : ℚ) + (digitsVal f : ℚ) / (10 : ℚ) ^ f.length)
      else none
  | _ => none

/-- Parse an optionally signed decimal exponent. -/
def parseExponent (cs : List Char) : Option ℤ :=
  match cs with
  | '+' :: r => if isDigits r then some (digitsVal r : ℤ) else none
  | '-' :: r => if isDigits r then some (-(digitsVal r : ℤ)) else none
  | r => if isDigits r then some (digitsVal r : ℤ) else none

/-- Parse an unsigned float body (already lower-cased): a named special or
`mantissa[e exponent]`. -/
def parseUnsignedFloat (cs : List Char) : Option PFloat :=
  if cs = ['i', 'n', 'f'] || cs = ['i', 'n', 'f', 'i', 'n', 'i', 't', 'y'] then
    some .inf
  else if cs = ['n', 'a', 'n'] then some .nan
  else
    match cs.splitOn 'e' with
    | [m] => (parseMantissa m).map .finite
    | [m, ex] => do
        let q ← parseMantissa m
        let e ← parseExponent ex
        some (.finite (q * (10 : ℚ) ^ e))
    | _ => none

/-- Strip leading and trailing whitespace from a character list. -/
def trimChars (cs : List Char) : List Char :=
  ((cs.dropWhile Char.isWhitespace).reverse.dropWhile Char.isWhitespace).reverse

/-- Model of `float(s)` for a string `s`: `none` models the `ValueError` raise. -/
def parsePyFloat (s : String) : Option PFloat :=
  match (trimChars s.toList).map Char.toLower with
  | '+' :: r => parseUnsignedFloat r
  | '-' :: r => (parseUnsignedFloat r).map PFloat.neg
  | r => parseUnsignedFloat r

/-- The Python `float()` builtin on a modelled value. -/
def pyfloat : PyVal → Except PyExc PFloat
  | .pyStr s =>
      match parsePyFloat s with
      | some f => .ok f
      | none => .error ⟨.valueError, "could not convert string to float: " ++ s⟩
  | .pyFloat f => .ok f
  | .pyInt n => .ok (.finite (n : ℚ))
  | .pyBool b => .ok (.finite (if b then 1 else 0))
  | _ => .error ⟨.typeError, "float() argument must be a string or a real number"⟩

example : parsePyFloat "abc" = none := by decide
example : (parsePyFloat "40.7128").isSome = true := by decide
example : (parsePyFloat "-74.0060").isSome = true := by decide
example : (parsePyFloat "1e5").isSome = true := by decide
example : parsePyFloat " -inf " = some .ninf := by decide
example : parsePyFloat "" = none := by decide
example : parsePyFloat "1.2.3" = none := by decide

/-! ### Outbound requests and session configuration -/

/-- Retry configuration of the session built in views.py:26:
`retry(cache_session, retries=5, backoff_factor=0.2)`. -/
structure RetryConfig where
  retries : ℕ
  backoff_factor : ℚ
deriving DecidableEq

/-- views.py:26: the retry wrapper around the cached session. -/
def retry_session_config : RetryConfig :=
  { retries := 5, backoff_factor := 1 / 5 }

/-- views.py:25: `requests_cache.CachedSession(".cache", expire_after=3600)`. -/
def cache_expire_after : ℕ := 3600

/-- Modelled from the spec: the retry delay of the retry layer (the external
`retry_requests`/`urllib3` machinery, not repository code), §4.2 of the spec:
`delay = backoffFactor × 2^attempt`, attempt starting at 0. -/
def backoff_delay (attempt : ℕ) : ℚ :=
  retry_session_config.backoff_factor * 2 ^ attempt

/-- Query parameters of the marine request, views.py:62-77. -/
structure MarineParams where
  latitude : PFloat
  longitude : PFloat
  current : List String
  daily : List String
  timeformat : String
  timezone : String
deriving DecidableEq

/-- An outbound HTTP request of the marine fetch: URL, parameters, and the
timeout passed to the transport call (`none` when no timeout is given). -/
structure MarineRequest where
  url : String
  params : MarineParams
  timeout : Option ℕ
deriving DecidableEq

/-- views.py:55-78, `ChatView.fetch_marine_data`: the request it issues.
`self.openmeteo.weather_api(url, params=params)` passes no timeout. -/
def marine_request (lat lon : PFloat) : MarineRequest :=
  { url := "https://marine-api.open-meteo.com/v1/marine"
    params :=
      { latitude := lat
        longitude := lon
        current :=
          ["wave_height", "wave_direction", "wave_period",
           "wind_wave_height", "wind_wave_direction", "wind_wave_period",
           "wind_wave_peak_period", "ocean_current_velocity",
           "ocean_current_direction"]
        daily :=
          ["wave_height_max", "wave_direction_dominant", "wave_period_max",
           "wind_wave_height_max", "wind_wave_direction_dominant",
           "wind_wave_period_max", "wind_wave_peak_period_max"]
        timeformat := "unixtime"
        timezone := "Asia/Singapore" }
    timeout := none }

/-- Query parameters of the fallback request, views.py:90-96. -/
structure ForecastParams where
  latitude : PFloat
  longitude : PFloat
  hourly : String
  current_weather : Bool
  timezone : String
deriving DecidableEq

/-- An outbound HTTP request of the fallback fetch. -/
structure ForecastRequest where
  url : String
  params : ForecastParams
  timeout : Option ℕ
deriving DecidableEq

/-- views.py:84-100, `ChatView.fetch_fallback_data`: the request it issues.
`requests.get(url, params=params, timeout=30)`. -/
def fallback_request (lat lon : PFloat) : ForecastRequest :=
  { url := "https://api.open-meteo.com/v1/forecast"
    params :=
      { latitude := lat
        longitude := lon
        hourly := "temperature_2m,relativehumidity_2m"
        current_weather := true
        timezone := "Asia/Singapore" }
    timeout := some 30 }

/-! ### The GET handler, views.py:102-199 -/

/-- The current-conditions block of a successful marine response:
`current.Variables(i).Value()` for `i = 0..8`. -/
structure MarineCurrent where
  vals : Fin 9 → PFloat

/-- A successful result of `fetch_marine_data`: the first
`WeatherApiResponse`, with `.Current()`, `.Latitude()`, `.Longitude()`. -/
structure MarineResponse where
  current : MarineCurrent
  lat : PFloat
  lon : PFloat

/-- The upstream calls the handler can perform. -/
inductive UpCall where
  | marineCall
  | forecastCall
deriving DecidableEq

/-- Outcome of the two fetches for this request's coordinates, abstracting
the network.  A `.error` value for `marine` covers every way the marine
path can fail (transport failure after retries, non-success status, or a
malformed payload breaking the positional extraction). -/
structure Env where
  marine : Except PyExc MarineResponse
  fallback : Except PyExc PyVal

/-- The result of one handler invocation: either a framework response with
a status code and body, or an exception that escaped the handler. -/
inductive HResult where
  | resp (statusCode : ℕ) (body : PyVal)
  | unhandled (e : PyExc)

/-- Status code of the result, `none` when an exception escaped. -/
def HResult.statusOf : HResult → Option ℕ
  | .resp s _ => some s
  | .unhandled _ => none

/-- views.py:188-199: the three `except` clauses of the outer `try`.
`ValueError` (and subclasses) → 400 with `str(e)`; `RuntimeError` → 500
with `str(e)`; anything else → 500 with the generic message. -/
def handle_exc (e : PyExc) : HResult :=
  if e.cls.isValueError then
    .resp 400 (.pyDict (fieldsOf [("error", .pyStr e.msg)]))
  else if e.cls.isRuntimeError then
    .resp 500 (.pyDict (fieldsOf [("error", .pyStr e.msg)]))
  else
    .resp 500 (.pyDict (fieldsOf
      [("error", .pyStr ("An unexpected error occurred: " ++ e.msg))]))

/-- The two optional query parameters, views.py:106-107. -/
structure Query where
  latitude : Option String
  longitude : Option String

/-- Default latitude 54.544587, views.py:106. -/
def default_latitude : ℚ := 54544587 / 1000000

/-- Default longitude 10.227487, views.py:107. -/
def default_longitude : ℚ := 10227487 / 1000000

/-- Model of `request.query_params.get("latitude", 54.544587)`: a string when the
parameter is present, the float default otherwise. -/
def latVal (q : Query) : PyVal :=
  match q.latitude with
  | some s => .pyStr s
  | none => .pyFloat (.finite default_latitude)

/-- Model of `request.query_params.get("longitude", 10.227487)`. -/
def lonVal (q : Query) : PyVal :=
  match q.longitude with
  | some s => .pyStr s
  | none => .pyFloat (.finite default_longitude)

/-- Lift a sanitized value back into a Python value (`None` for absent). -/
def optPy : Option PFloat → PyVal
  | none => .pyNone
  | some f => .pyFloat f

/-- views.py:124-134: the `current_data` dict of the marine path; every
field is `self.clean_value(current.Variables(i).Value())`. -/
def marine_current_data (c : MarineCurrent) : PyFields :=
  fieldsOf
    [("wave_height", optPy (clean_value (.pyFloat (c.vals 0)))),
     ("wave_direction", optPy (clean_value (.pyFloat (c.vals 1)))),
     ("wave_period", optPy (clean_value (.pyFloat (c.vals 2)))),
     ("wind_wave_height", optPy (clean_value (.pyFloat (c.vals 3)))),
     ("wind_wave_direction", optPy (clean_value (.pyFloat (c.vals 4)))),
     ("wind_wave_period", optPy (clean_value (.pyFloat (c.vals 5)))),
     ("wind_wave_peak_period", optPy (clean_value (.pyFloat (c.vals 6)))),
     ("ocean_current_velocity", optPy (clean_value (.pyFloat (c.vals 7)))),
     ("ocean_current_direction", optPy (clean_value (.pyFloat (c.vals 8))))]

/-- views.py:136-141: the marine-path `response_data`. -/
def marine_response_data (md : MarineResponse) : PyVal :=
  .pyDict (fieldsOf
    [("weather_data", .pyDict (marine_current_data md.current)),
     ("latitude", .pyFloat md.lat),
     ("longitude", .pyFloat md.lon),
     ("endpoint_used", .pyStr "marine")])

/-- Model of `v.get(key, dflt)` on an arbitrary value: on a non-dict value
the attribute access raises `AttributeError`. -/
def py_get (v : PyVal) (key : String) (dflt : PyVal) : Except PyExc PyVal :=
  match v with
  | .pyDict fs => .ok (fs.getD key dflt)
  | _ => .error ⟨.attributeError, "object has no attribute get"⟩

/-- views.py:167-180: build the fallback `response_data` from the decoded
fallback payload.  `cw = fallback_dict.get("current_weather", {})`; the
current-weather fields are inserted raw (no `clean_value`);
`relativehumidity_2m` is hardcoded `None`; the envelope's latitude and
longitude come from `fallback_dict.get(...)` with default `None`. -/
def fallback_response_data (fd : PyVal) : Except PyExc PyVal := do
  let cw ← py_get fd "current_weather" (.pyDict .nil)
  let temperature ← py_get cw "temperature" .pyNone
  let windspeed ← py_get cw "windspeed" .pyNone
  let winddirection ← py_get cw "winddirection" .pyNone
  let weathercode ← py_get cw "weathercode" .pyNone
  let time ← py_get cw "time" .pyNone
  let lat ← py_get fd "latitude" .pyNone
  let lon ← py_get fd "longitude" .pyNone
  .ok (.pyDict (fieldsOf
    [("weather_data", .pyDict (fieldsOf
        [("temperature_2m", temperature),
         ("relativehumidity_2m", .pyNone),
         ("windspeed", windspeed),
         ("winddirection", winddirection),
         ("weathercode", weathercode),
         ("time", time)])),
     ("latitude", lat),
     ("longitude", lon),
     ("endpoint_used", .pyStr "standard_forecast")]))

/-- views.py:102-199, `ChatView.get`.  Returns the handler result and the
list of upstream calls performed.  Faithful control flow:
* views.py:109-111: the debug statement `print(float(latitude))` runs
  BEFORE the `try` block, so its `ValueError` escapes the handler;
* views.py:114-115: `float(latitude)`, `float(longitude)` inside the
  outer `try`, whose `except` clauses are `handle_exc`;
* views.py:117-180: inner `try`: marine fetch and assembly; on any
  exception the fallback fetch and assembly run, and their exceptions
  propagate to the outer `except` clauses;
* views.py:182-186: `Response(self.validate_json(response_data), 200)`. -/
def getHandler (q : Query) (env : Env) : HResult × List UpCall :=
  let latitude := latVal q
  let longitude := lonVal q
  match pyfloat latitude with
  | .error e => (.unhandled e, [])
  | .ok _ =>
    match pyfloat latitude, pyfloat longitude with
    | .error e, _ => (handle_exc e, [])
    | _, .error e => (handle_exc e, [])
    | .ok _, .ok _ =>
      match env.marine with
      | .ok md =>
          (.resp 200 (validate_json (marine_response_data md)).1, [.marineCall])
      | .error _ =>
          match env.fallback with
          | .error e2 => (handle_exc e2, [.marineCall, .forecastCall])
          | .ok fd =>
              match fallback_response_data fd with
              | .error e3 => (handle_exc e3, [.marineCall, .forecastCall])
              | .ok response_data =>
                  (.resp 200 (validate_json response_data).1,
                   [.marineCall, .forecastCall])

/-! ### Observation helpers for the handler's responses -/

/-- The `endpoint_used` entry of a response body, if any. -/
def endpointOf : HResult → Option PyVal
  | .resp _ (.pyDict fs) => fs.lookup "endpoint_used"
  | _ => none

/-- The value stored under `key` in the `weather_data` entry of a response
body, if any. -/
def respWeatherField (r : HResult) (key : String) : Option PyVal :=
  match r with
  | .resp _ (.pyDict fs) =>
      match fs.lookup "weather_data" with
      | some (.pyDict wf) => wf.lookup key
      | _ => none
  | _ => none

/-- The ordered key list of the `weather_data` entry of a response body. -/
def weatherKeys (r : HResult) : Option (List String) :=
  match r with
  | .resp _ (.pyDict fs) =>
      match fs.lookup "weather_data" with
      | some (.pyDict wf) => some wf.keys
      | _ => none
  | _ => none

/-- The nine field names of the marine reading, in the order of
views.py:124-134. -/
def marineFieldName : Fin 9 → String
  | 0 => "wave_height"
  | 1 => "wave_direction"
  | 2 => "wave_period"
  | 3 => "wind_wave_height"
  | 4 => "wind_wave_direction"
  | 5 => "wind_wave_period"
  | 6 => "wind_wave_peak_period"
  | 7 => "ocean_current_velocity"
  | 8 => "ocean_current_direction"

/-- The marine reading's key list. -/
def marineFieldNames : List String :=
  ["wave_height", "wave_direction", "wave_period", "wind_wave_height",
   "wind_wave_direction", "wind_wave_period", "wind_wave_peak_period",
   "ocean_current_velocity", "ocean_current_direction"]

/-- The fallback reading's key list, in the order of views.py:169-176. -/
def forecastFieldNames : List String :=
  ["temperature_2m", "relativehumidity_2m", "windspeed", "winddirection",
   "weathercode", "time"]

/-! ### Shared lemmas -/

/-- Lemma: `validate_json` returns a serializable payload unchanged, with no log. -/
theorem validate_json_id (d : PyVal) (h : d.serializable = true) :
    validate_json d = (d, []) := by
  simp [validate_json, json_dumps, h]

/-- A value looked up in serializable dict entries is serializable. -/
theorem serializable_of_lookup : ∀ {fs : PyFields} {key : String} {v : PyVal},
    fs.serializableF = true → fs.lookup key = some v → v.serializable = true
  | .nil, key, v, _, hv => by simp [PyFields.lookup] at hv
  | .cons k w rest, key, v, hfs, hv => by
      rw [PyFields.serializableF] at hfs
      rw [PyFields.lookup] at hv
      rcases Bool.and_eq_true_iff.mp hfs with ⟨hw, hrest⟩
      by_cases hk : k = key
      · rw [if_pos hk] at hv
        cases hv
        exact hw
      · rw [if_neg hk] at hv
        exact serializable_of_lookup hrest hv

/-- Lemma: `dict.get key None` on serializable dict entries is serializable. -/
theorem serializable_getD {fs : PyFields} (hfs : fs.serializableF = true)
    (key : String) : (fs.getD key .pyNone).serializable = true := by
  rw [PyFields.getD]
  cases hv : fs.lookup key with
  | none => rfl
  | some v => exact serializable_of_lookup hfs hv

/-- Sanitized values are serializable. -/
theorem optPy_serializable (o : Option PFloat) :
    (optPy o).serializable = true := by
  cases o <;> rfl

/-- The marine-path `response_data` is always serializable: its leaves are
sanitized numbers, floats and strings. -/
theorem marine_response_data_serializable (md : MarineResponse) :
    (marine_response_data md).serializable = true := by
  simp [marine_response_data, marine_current_data, fieldsOf,
    PyVal.serializable, PyFields.serializableF, optPy_serializable]

/-! ### Claims about the Sanitizer (`clean_value`) -/

/-- Model of `isinstance(value, (int, float))` of views.py:34: true for bool, int
and float (Python `bool` is a subclass of `int`). -/
def isNumeric : PyVal → Bool
  | .pyBool _ => true
  | .pyInt _ => true
  | .pyFloat _ => true
  | _ => false

/-- The exact finite numeric value of a modelled Python number, `none` for
non-numeric values and for NaN/infinities. -/
def finiteVal : PyVal → Option ℚ
  | .pyBool b => some (if b then 1 else 0)
  | .pyInt n => some (n : ℚ)
  | .pyFloat (.finite q) => some q
  | _ => none

/-- C6: `clean_value` is a pure function; a non-numeric input yields `None`;
NaN and infinities yield `None`; a finite numeric value of magnitude above
1e5 yields `None`; any other finite numeric value is returned unchanged as
a float. -/
theorem C6_clean_value_spec (v : PyVal) :
    (isNumeric v = false → clean_value v = none)
  ∧ ((v = .pyFloat .nan ∨ v = .pyFloat .inf ∨ v = .pyFloat .ninf) →
       clean_value v = none)
  ∧ (∀ q : ℚ, finiteVal v = some q → 100000 < |q| → clean_value v = none)
  ∧ (∀ q : ℚ, finiteVal v = some q → |q| ≤ 100000 →
       clean_value v = some (.finite q)) := by
  refine ⟨?_, ?_, ?_, ?_⟩
  · intro h
    cases v <;> first | rfl | simp [isNumeric] at h
  · rintro (rfl | rfl | rfl) <;> rfl
  · intro q hq hgt
    cases v with
    | pyBool b =>
        have hq2 : (if b then (1 : ℚ) else 0) = q := by
          simpa [finiteVal] using hq
        cases b <;> simp at hq2 <;> rw [← hq2] at hgt <;> norm_num at hgt
    | pyInt n =>
        have hq2 : ((n : ℚ)) = q := by simpa [finiteVal] using hq
        subst hq2
        have : (100000 : ℤ) < |n| := by exact_mod_cast hgt
        simp only [clean_value, gt_iff_lt]
        rw [if_pos this]
    | pyFloat f =>
        cases f with
        | finite r =>
            have hq2 : r = q := by simpa [finiteVal] using hq
            subst hq2
            simp only [clean_value, gt_iff_lt]
            rw [if_pos hgt]
        | nan => simp [finiteVal] at hq
        | inf => simp [finiteVal] at hq
        | ninf => simp [finiteVal] at hq
    | pyNone => simp [finiteVal] at hq
    | pyStr s => simp [finiteVal] at hq
    | pyDict fs => simp [finiteVal] at hq
    | pyObj => simp [finiteVal] at hq
  · intro q hq hle
    cases v with
    | pyBool b =>
        have hq2 : (if b then (1 : ℚ) else 0) = q := by
          simpa [finiteVal] using hq
        cases b <;> simp at hq2 <;> subst hq2 <;> simp [clean_value]
    | pyInt n =>
        have hq2 : ((n : ℚ)) = q := by simpa [finiteVal] using hq
        subst hq2
        have : ¬ (100000 : ℤ) < |n| := by
          rw [not_lt]
          exact_mod_cast hle
        simp only [clean_value, gt_iff_lt]
        rw [if_neg this]
    | pyFloat f =>
        cases f with
        | finite r =>
            have hq2 : r = q := by simpa [finiteVal] using hq
            subst hq2
            simp only [clean_value, gt_iff_lt]
            rw [if_neg (not_lt.mpr hle)]
        | nan => simp [finiteVal] at hq
        | inf => simp [finiteVal] at hq
        | ninf => simp [finiteVal] at hq
    | pyNone => simp [finiteVal] at hq
    | pyStr s => simp [finiteVal] at hq
    | pyDict fs => simp [finiteVal] at hq
    | pyObj => simp [finiteVal] at hq

/-- Witness for C6: the four branches at concrete inputs — a string, NaN,
the out-of-range float 200000, and the in-range float 3. -/
theorem C6_clean_value_spec_witness :
    clean_value (.pyStr "abc") = none
  ∧ clean_value (.pyFloat .nan) = none
  ∧ clean_value (.pyFloat (.finite 200000)) = none
  ∧ clean_value (.pyFloat (.finite 3)) = some (.finite 3) :=
  ⟨(C6_clean_value_spec (.pyStr "abc")).1 rfl,
   (C6_clean_value_spec (.pyFloat .nan)).2.1 (Or.inl rfl),
   (C6_clean_value_spec (.pyFloat (.finite 200000))).2.2.1 200000 rfl (by decide),
   (C6_clean_value_spec (.pyFloat (.finite 3))).2.2.2 3 rfl (by decide)⟩

/-- C10: Python booleans satisfy the numeric-type check of `clean_value`
(`bool` subclasses `int`), so `clean_value(True) = 1.0` and
`clean_value(False) = 0.0`, not absent. -/
theorem C10_clean_value_bool :
    clean_value (.pyBool true) = some (.finite 1)
  ∧ clean_value (.pyBool false) = some (.finite 0)
  ∧ isNumeric (.pyBool true) = true ∧ isNumeric (.pyBool false) = true := by
  refine ⟨by decide, by decide, rfl, rfl⟩

/-! ### Claims about the OutputValidator, the fetch configuration and input
parsing -/

/-- C8: `validate_json` returns its input unchanged whenever it is
JSON-serializable; whenever serialization fails it logs the failure with the
offending payload and returns the empty object instead.  It is a total
function (it never raises: the `except (TypeError, ValueError)` of
views.py:51 covers every failure `json.dumps` can produce on these values). -/
theorem C8_validate_json_spec (d : PyVal) :
    (d.serializable = true → validate_json d = (d, []))
  ∧ (d.serializable = false →
       validate_json d = (.pyDict .nil, [.logNonSerializable d])) := by
  constructor
  · intro h
    simp [validate_json, json_dumps, h]
  · intro h
    simp [validate_json, json_dumps, h]

/-- Witness for C8: a serializable payload is returned unchanged; a payload
holding a non-serializable object is replaced by the empty dict and logged. -/
theorem C8_validate_json_spec_witness :
    validate_json (.pyDict (fieldsOf [("a", .pyInt 3)]))
      = (.pyDict (fieldsOf [("a", .pyInt 3)]), [])
  ∧ validate_json (.pyDict (fieldsOf [("a", .pyObj)]))
      = (.pyDict .nil,
         [.logNonSerializable (.pyDict (fieldsOf [("a", .pyObj)]))]) :=
  ⟨(C8_validate_json_spec (.pyDict (fieldsOf [("a", .pyInt 3)]))).1 rfl,
   (C8_validate_json_spec (.pyDict (fieldsOf [("a", .pyObj)]))).2 rfl⟩

/-- C7 counterexample: the primary (marine) request is NOT issued with a
timeout of 30: `self.openmeteo.weather_api(url, params=params)` at
views.py:78 passes no timeout at all (the `timeout=30` of views.py:98
belongs to the fallback request). -/
theorem C7_marine_timeout_counterexample :
    (marine_request (.finite 0) (.finite 0)).timeout = none
  ∧ (marine_request (.finite 0) (.finite 0)).timeout ≠ some 30 :=
  ⟨rfl, by decide⟩

/-- C7 as amended: the retry layer around the primary fetch is configured
with `retries = 5` and `backoff_factor = 0.2` (views.py:26), giving the
delay `0.2 × 2^attempt` between attempts; the marine request itself is
issued with no explicit timeout, while the fixed 30-unit timeout is passed
on the fallback request (views.py:98). -/
theorem C7_retry_config_spec :
    retry_session_config.retries = 5
  ∧ retry_session_config.backoff_factor = 1 / 5
  ∧ (∀ attempt : ℕ, backoff_delay attempt = (1 / 5 : ℚ) * 2 ^ attempt)
  ∧ (∀ la lo : PFloat, (marine_request la lo).timeout = none)
  ∧ (∀ la lo : PFloat, (fallback_request la lo).timeout = some 30) :=
  ⟨rfl, rfl, fun _ => rfl, fun _ _ => rfl, fun _ _ => rfl⟩

/-- C2 (code bug): with latitude `"abc"`, the debug statement
`print(float(latitude))` at views.py:111 runs BEFORE the `try` block of
views.py:113, so the `ValueError` escapes the handler unhandled (no 400
parse-error response is produced by the handler); no upstream call is made.
This holds for every environment, since the crash precedes both fetches. -/
theorem C2_latitude_abc_unhandled (env : Env) :
    getHandler { latitude := some "abc", longitude := none } env
      = (.unhandled ⟨.valueError, "could not convert string to float: abc"⟩,
         []) := rfl

/-! ### Claims about the GET handler's control flow -/

/-- Lemma: `handle_exc` always produces a response: no exception class escapes the
three `except` clauses of views.py:188-199. -/
theorem handle_exc_resp (e : PyExc) : ∃ s b, handle_exc e = .resp s b := by
  unfold handle_exc
  split
  · exact ⟨_, _, rfl⟩
  · split
    · exact ⟨_, _, rfl⟩
    · exact ⟨_, _, rfl⟩

/-- A request with both query parameters absent (the defaults are used). -/
def qDefault : Query := { latitude := none, longitude := none }

/-- An environment in which the marine fetch fails with a transport error
and the fallback body is unparseable (a JSON decode error). -/
def bothFailJsonEnv : Env :=
  { marine := .error ⟨.connectionError, "connection refused"⟩
    fallback := .error ⟨.jsonDecodeError, "Expecting value: line 1 column 1"⟩ }

/-- An environment in which both fetches fail with transport errors. -/
def bothFailTransportEnv : Env :=
  { marine := .error ⟨.connectionError, "connection refused"⟩
    fallback := .error ⟨.connectionError, "connection refused"⟩ }

/-- C4 counterexample: when the fallback body is unparseable, the handler
returns 400, not 500: `requests.Response.json` raises a JSON decode error,
which is a subclass of `ValueError`, so the `except ValueError` clause of
views.py:188 catches it first. -/
theorem C4_both_fail_counterexample :
    (getHandler qDefault bothFailJsonEnv).1.statusOf = some 400
  ∧ (getHandler qDefault bothFailJsonEnv).1.statusOf ≠ some 500 :=
  ⟨rfl, by decide⟩

/-- C4 as amended: for parseable coordinates, when the primary fetch fails
and the fallback fetch also fails, the handler always produces a response
(no exception escapes); the response is a 500 with the generic message when
the fallback failure is a transport failure or a non-success status, but an
unparseable fallback body raises a JSON decode error — a `ValueError`
subclass — which the handler maps to a 400 instead. -/
theorem C4_both_fail_spec (q : Query) (env : Env) (la lo : PFloat)
    (e1 e2 : PyExc)
    (hla : pyfloat (latVal q) = .ok la) (hlo : pyfloat (lonVal q) = .ok lo)
    (hm : env.marine = .error e1) (hf : env.fallback = .error e2) :
    ((e2.cls = .connectionError ∨ e2.cls = .timeoutError ∨ e2.cls = .httpError) →
       (getHandler q env).1 = .resp 500 (.pyDict (fieldsOf
         [("error", .pyStr ("An unexpected error occurred: " ++ e2.msg))])))
  ∧ (e2.cls = .jsonDecodeError →
       (getHandler q env).1 = .resp 400 (.pyDict (fieldsOf
         [("error", .pyStr e2.msg)])))
  ∧ (∃ s b, (getHandler q env).1 = .resp s b) := by
  have hrun : getHandler q env = (handle_exc e2, [.marineCall, .forecastCall]) := by
    simp [getHandler, hla, hlo, hm, hf]
  rw [hrun]
  refine ⟨?_, ?_, handle_exc_resp e2⟩
  · rintro (hc | hc | hc) <;>
      simp [handle_exc, hc, ExcClass.isValueError, ExcClass.isRuntimeError]
  · intro hc
    simp [handle_exc, hc, ExcClass.isValueError]

/-- Witness for C4 as amended: with defaults and both fetches failing with
transport errors, the handler returns the generic 500. -/
theorem C4_both_fail_spec_witness :
    (getHandler qDefault bothFailTransportEnv).1
      = .resp 500 (.pyDict (fieldsOf
          [("error",
            .pyStr ("An unexpected error occurred: " ++ "connection refused"))])) :=
  (C4_both_fail_spec qDefault bothFailTransportEnv _ _ _ _
      rfl rfl rfl rfl).1 (Or.inl rfl)

/-- Modelled from the spec: the external land/water classification
capability of spec §4.1 (`classify(coordinate) -> LAND | WATER`,
deterministic, side-effect-free, a precomputed land/sea mask).  The code
under `src/` never invokes any such capability; the mask here fixes the
spec's scenario coordinate `(40.7128, -74.0060)` as inland (LAND), per
spec §8. -/
inductive LandWater where
  | LAND
  | WATER
deriving DecidableEq

/-- Modelled from the spec: the land/sea mask on the spec's scenario
coordinates; everything else is water. -/
def classify (lat lon : ℚ) : LandWater :=
  if lat = 407128 / 10000 ∧ lon = -(740060 / 10000) then .LAND else .WATER

/-- The spec's inland scenario coordinate as query parameters. -/
def nycQuery : Query :=
  { latitude := some "40.7128", longitude := some "-74.0060" }

/-- An environment for a land coordinate: the marine endpoint fails (land
is not covered by the marine source) and the standard forecast succeeds. -/
def landAbsorbEnv : Env :=
  { marine := .error ⟨.otherExc, "marine data unavailable"⟩
    fallback := .ok (.pyDict (fieldsOf
      [("latitude", .pyFloat (.finite 40)),
       ("longitude", .pyFloat (.finite (-74))),
       ("current_weather", .pyDict (fieldsOf
         [("temperature", .pyFloat (.finite 27)),
          ("windspeed", .pyFloat (.finite 5)),
          ("winddirection", .pyInt 80),
          ("weathercode", .pyInt 3),
          ("time", .pyStr "2025-03-05T10:00")]))])) }

/-- C1 counterexample: at the coordinate the classification marks LAND, the
handler does NOT return a 400 land rejection and upstream calls ARE made:
it attempts the marine fetch, falls back, and returns 200 with
`endpoint_used = "standard_forecast"`.  The handler contains no land
gate. -/
theorem C1_no_land_gate_counterexample :
    classify (407128 / 10000) (-(740060 / 10000)) = .LAND
  ∧ (getHandler nycQuery landAbsorbEnv).1.statusOf = some 200
  ∧ (getHandler nycQuery landAbsorbEnv).1.statusOf ≠ some 400
  ∧ (getHandler nycQuery landAbsorbEnv).2 = [.marineCall, .forecastCall]
  ∧ endpointOf (getHandler nycQuery landAbsorbEnv).1
      = some (.pyStr "standard_forecast") := by
  refine ⟨by simp [classify], rfl, by decide, rfl, rfl⟩

/-- C1 as amended: the handler performs no land/water gating.  For every
request with parseable coordinates the primary upstream fetch is attempted,
whatever the land classification of the coordinate says; land coordinates
are absorbed by the fallback path instead of being rejected with a 400. -/
theorem C1_no_land_gate (q : Query) (env : Env) (la lo : PFloat)
    (hla : pyfloat (latVal q) = .ok la) (hlo : pyfloat (lonVal q) = .ok lo) :
    UpCall.marineCall ∈ (getHandler q env).2 := by
  have h0 : getHandler q env
      = (match env.marine with
         | .ok md =>
             (.resp 200 (validate_json (marine_response_data md)).1, [.marineCall])
         | .error _ =>
             match env.fallback with
             | .error e2 => (handle_exc e2, [.marineCall, .forecastCall])
             | .ok fd =>
                 match fallback_response_data fd with
                 | .error e3 => (handle_exc e3, [.marineCall, .forecastCall])
                 | .ok response_data =>
                     (.resp 200 (validate_json response_data).1,
                      [.marineCall, .forecastCall])) := by
    simp [getHandler, hla, hlo]
  rw [h0]
  cases env.marine with
  | ok md => simp
  | error e =>
      cases env.fallback with
      | error e2 => simp
      | ok fd =>
          rcases h3 : fallback_response_data fd with e3 | rd <;> simp [h3]

/-- Witness for C1 as amended: at the inland scenario coordinate the
primary fetch is attempted. -/
theorem C1_no_land_gate_witness :
    UpCall.marineCall ∈ (getHandler nycQuery landAbsorbEnv).2 :=
  C1_no_land_gate nycQuery landAbsorbEnv _ _ rfl rfl

/-- When the coordinates parse and the marine fetch succeeds, the handler
returns 200 with the marine envelope (which is always serializable, so
`validate_json` passes it through) and performs exactly the marine call. -/
theorem getHandler_marine_run (q : Query) (env : Env) (la lo : PFloat)
    (md : MarineResponse)
    (hla : pyfloat (latVal q) = .ok la) (hlo : pyfloat (lonVal q) = .ok lo)
    (hm : env.marine = .ok md) :
    getHandler q env = (.resp 200 (marine_response_data md), [.marineCall]) := by
  simp [getHandler, hla, hlo, hm,
    validate_json_id _ (marine_response_data_serializable md)]

/-- When the coordinates parse and the marine fetch fails, the handler
performs exactly the marine call followed by one fallback call, whatever
the fallback outcome is. -/
theorem getHandler_error_calls (q : Query) (env : Env) (la lo : PFloat)
    (e : PyExc)
    (hla : pyfloat (latVal q) = .ok la) (hlo : pyfloat (lonVal q) = .ok lo)
    (hm : env.marine = .error e) :
    (getHandler q env).2 = [.marineCall, .forecastCall] := by
  have h0 : getHandler q env
      = (match env.fallback with
         | .error e2 => (handle_exc e2, [.marineCall, .forecastCall])
         | .ok fd =>
             match fallback_response_data fd with
             | .error e3 => (handle_exc e3, [.marineCall, .forecastCall])
             | .ok response_data =>
                 (.resp 200 (validate_json response_data).1,
                  [.marineCall, .forecastCall])) := by
    simp [getHandler, hla, hlo, hm]
  rw [h0]
  cases env.fallback with
  | error e2 => simp
  | ok fd =>
      rcases h3 : fallback_response_data fd with e3 | rd <;> simp [h3]

/-- When the coordinates parse, the marine fetch fails, and the fallback
body decodes to a JSON object (with serializable entries) whose
`current_weather` member is an object, the handler returns 200 with the
fallback envelope built from the raw (unsanitized) current-weather
values. -/
theorem getHandler_fallback_run (q : Query) (env : Env) (la lo : PFloat)
    (e : PyExc) (fs cfs : PyFields)
    (hla : pyfloat (latVal q) = .ok la) (hlo : pyfloat (lonVal q) = .ok lo)
    (hm : env.marine = .error e)
    (hf : env.fallback = .ok (.pyDict fs))
    (hser : fs.serializableF = true)
    (hcw : fs.lookup "current_weather" = some (.pyDict cfs)) :
    getHandler q env = (.resp 200 (.pyDict (fieldsOf
      [("weather_data", .pyDict (fieldsOf
          [("temperature_2m", cfs.getD "temperature" .pyNone),
           ("relativehumidity_2m", .pyNone),
           ("windspeed", cfs.getD "windspeed" .pyNone),
           ("winddirection", cfs.getD "winddirection" .pyNone),
           ("weathercode", cfs.getD "weathercode" .pyNone),
           ("time", cfs.getD "time" .pyNone)])),
       ("latitude", fs.getD "latitude" .pyNone),
       ("longitude", fs.getD "longitude" .pyNone),
       ("endpoint_used", .pyStr "standard_forecast")])),
      [.marineCall, .forecastCall]) := by
  have hcw2 : fs.getD "current_weather" (.pyDict .nil) = .pyDict cfs := by
    simp [PyFields.getD, hcw]
  have hcser : cfs.serializableF = true := serializable_of_lookup hser hcw
  have hrd : fallback_response_data (.pyDict fs)
      = .ok (.pyDict (fieldsOf
        [("weather_data", .pyDict (fieldsOf
            [("temperature_2m", cfs.getD "temperature" .pyNone),
             ("relativehumidity_2m", .pyNone),
             ("windspeed", cfs.getD "windspeed" .pyNone),
             ("winddirection", cfs.getD "winddirection" .pyNone),
             ("weathercode", cfs.getD "weathercode" .pyNone),
             ("time", cfs.getD "time" .pyNone)])),
         ("latitude", fs.getD "latitude" .pyNone),
         ("longitude", fs.getD "longitude" .pyNone),
         ("endpoint_used", .pyStr "standard_forecast")])) := by
    have h1 : py_get (.pyDict fs) "current_weather" (.pyDict .nil)
        = .ok (.pyDict cfs) := by
      simp [py_get, hcw2]
    unfold fallback_response_data
    rw [h1]
    rfl
  have hserrd : (PyVal.pyDict (fieldsOf
      [("weather_data", .pyDict (fieldsOf
          [("temperature_2m", cfs.getD "temperature" .pyNone),
           ("relativehumidity_2m", .pyNone),
           ("windspeed", cfs.getD "windspeed" .pyNone),
           ("winddirection", cfs.getD "winddirection" .pyNone),
           ("weathercode", cfs.getD "weathercode" .pyNone),
           ("time", cfs.getD "time" .pyNone)])),
       ("latitude", fs.getD "latitude" .pyNone),
       ("longitude", fs.getD "longitude" .pyNone),
       ("endpoint_used", .pyStr "standard_forecast")])).serializable = true := by
    simp [PyVal.serializable, PyFields.serializableF, fieldsOf,
      serializable_getD hser, serializable_getD hcser]
  simp [getHandler, hla, hlo, hm, hf, hrd, validate_json_id _ hserrd]

/-- An environment whose fallback payload carries an implausibly large
temperature (1e6): the marine fetch fails, the fallback succeeds. -/
def rawFallbackEnv : Env :=
  { marine := .error ⟨.otherExc, "marine data unavailable"⟩
    fallback := .ok (.pyDict (fieldsOf
      [("current_weather", .pyDict (fieldsOf
         [("temperature", .pyFloat (.finite 1000000)),
          ("windspeed", .pyFloat (.finite 5))]))])) }

/-- C3 counterexample: on the fallback path the fields are NOT passed
through `clean_value`: a temperature of 1e6 is placed into `weather_data`
unchanged, although `clean_value` maps it to `None`
(views.py:170 uses `cw.get("temperature")` with no sanitization). -/
theorem C3_fallback_raw_counterexample :
    respWeatherField (getHandler qDefault rawFallbackEnv).1 "temperature_2m"
      = some (.pyFloat (.finite 1000000))
  ∧ clean_value (.pyFloat (.finite 1000000)) = none
  ∧ respWeatherField (getHandler qDefault rawFallbackEnv).1 "temperature_2m"
      ≠ some (optPy (clean_value (.pyFloat (.finite 1000000)))) := by
  refine ⟨rfl, by decide, ?_⟩
  rw [show respWeatherField (getHandler qDefault rawFallbackEnv).1
        "temperature_2m" = some (.pyFloat (.finite 1000000)) from rfl,
      show clean_value (.pyFloat (.finite 1000000)) = none from by decide]
  simp [optPy]

/-- C3 as amended: on the marine path every field of `weather_data` is the
result of `clean_value` applied to its own raw variable (independently,
so one invalid field cannot affect a sibling); on the fallback path the
current-weather values are inserted raw, without passing through
`clean_value`. -/
theorem C3_sanitizer_per_field (q : Query) (env : Env) (la lo : PFloat)
    (hla : pyfloat (latVal q) = .ok la) (hlo : pyfloat (lonVal q) = .ok lo) :
    (∀ md, env.marine = .ok md → ∀ i : Fin 9,
       respWeatherField (getHandler q env).1 (marineFieldName i)
         = some (optPy (clean_value (.pyFloat (md.current.vals i)))))
  ∧ (∀ e fs cfs, env.marine = .error e →
       env.fallback = .ok (.pyDict fs) →
       fs.serializableF = true →
       fs.lookup "current_weather" = some (.pyDict cfs) →
       respWeatherField (getHandler q env).1 "temperature_2m"
         = some (cfs.getD "temperature" .pyNone)) := by
  constructor
  · intro md hm i
    rw [getHandler_marine_run q env la lo md hla hlo hm]
    fin_cases i <;> rfl
  · intro e fs cfs hm hf hser hcw
    rw [getHandler_fallback_run q env la lo e fs cfs hla hlo hm hf hser hcw]
    rfl

/-- A marine response mixing an invalid reading (NaN in field 0) with a
valid sibling (2.0 in field 1). -/
def mixedMarineEnv : Env :=
  { marine := .ok
      { current := ⟨fun i => if i = 0 then .nan else .finite 2⟩
        lat := .finite 54
        lon := .finite 10 }
    fallback := .error ⟨.otherExc, "not used"⟩ }

/-- Witness for C3 as amended: at a concrete marine response whose field 0
is NaN and field 1 is 2.0, field 0 is sanitized to `None` while its sibling
field 1 survives; and at a concrete fallback payload the raw temperature
value is passed through. -/
theorem C3_sanitizer_per_field_witness :
    respWeatherField (getHandler qDefault mixedMarineEnv).1 "wave_height"
      = some (optPy (clean_value (.pyFloat .nan)))
  ∧ respWeatherField (getHandler qDefault mixedMarineEnv).1 "wave_direction"
      = some (optPy (clean_value (.pyFloat (.finite 2))))
  ∧ respWeatherField (getHandler nycQuery landAbsorbEnv).1 "temperature_2m"
      = some (.pyFloat (.finite 27)) := by
  refine ⟨?_, ?_, ?_⟩
  · exact (C3_sanitizer_per_field qDefault mixedMarineEnv _ _ rfl rfl).1 _ rfl 0
  · exact (C3_sanitizer_per_field qDefault mixedMarineEnv _ _ rfl rfl).1 _ rfl 1
  · exact (C3_sanitizer_per_field nycQuery landAbsorbEnv _ _ rfl rfl).2
      _ _ _ rfl rfl rfl rfl

/-- A healthy-primary environment: the marine fetch succeeds with in-range
readings; the fallback would fail (it must not be consulted). -/
def marineOkEnv : Env :=
  { marine := .ok
      { current := ⟨fun _ => .finite 1⟩
        lat := .finite 54
        lon := .finite 10 }
    fallback := .error ⟨.otherExc, "not used"⟩ }

/-- C5: for parseable coordinates — if the primary (marine) fetch succeeds,
the fallback is never invoked, the response is 200 with
`endpoint_used = "marine"`, and `weather_data` carries exactly the nine
marine fields; if the primary fetch fails, the fallback is invoked exactly
once (the upstream call list is precisely
`[marineCall, forecastCall]`), and when that single fallback fetch
succeeds (its body decodes to a JSON object with an object-valued
`current_weather`), the response is 200 with
`endpoint_used = "standard_forecast"` and `weather_data` carries exactly
the forecast fields. -/
theorem C5_primary_fallback_protocol (q : Query) (env : Env) (la lo : PFloat)
    (hla : pyfloat (latVal q) = .ok la) (hlo : pyfloat (lonVal q) = .ok lo) :
    (∀ md, env.marine = .ok md →
         (getHandler q env).2 = [.marineCall]
       ∧ (getHandler q env).1.statusOf = some 200
       ∧ endpointOf (getHandler q env).1 = some (.pyStr "marine")
       ∧ weatherKeys (getHandler q env).1 = some marineFieldNames)
  ∧ (∀ e, env.marine = .error e →
         (getHandler q env).2 = [.marineCall, .forecastCall]
       ∧ (getHandler q env).2.count .forecastCall = 1
       ∧ (∀ fs cfs, env.fallback = .ok (.pyDict fs) →
            fs.serializableF = true →
            fs.lookup "current_weather" = some (.pyDict cfs) →
              (getHandler q env).1.statusOf = some 200
            ∧ endpointOf (getHandler q env).1
                = some (.pyStr "standard_forecast")
            ∧ weatherKeys (getHandler q env).1 = some forecastFieldNames)) := by
  constructor
  · intro md hm
    rw [getHandler_marine_run q env la lo md hla hlo hm]
    exact ⟨rfl, rfl, rfl, rfl⟩
  · intro e hm
    refine ⟨getHandler_error_calls q env la lo e hla hlo hm, ?_, ?_⟩
    · rw [getHandler_error_calls q env la lo e hla hlo hm]
      rfl
    · intro fs cfs hf hser hcw
      rw [getHandler_fallback_run q env la lo e fs cfs hla hlo hm hf hser hcw]
      exact ⟨rfl, rfl, rfl⟩

/-- Witness for C5: with a healthy primary source only the marine call is
made and the envelope is the marine one; with a failing primary source the
single fallback call is made and the envelope is the forecast one. -/
theorem C5_primary_fallback_protocol_witness :
    (getHandler qDefault marineOkEnv).2 = [.marineCall]
  ∧ endpointOf (getHandler qDefault marineOkEnv).1 = some (.pyStr "marine")
  ∧ (getHandler nycQuery landAbsorbEnv).2.count .forecastCall = 1
  ∧ endpointOf (getHandler nycQuery landAbsorbEnv).1
      = some (.pyStr "standard_forecast") := by
  have h1 := (C5_primary_fallback_protocol qDefault marineOkEnv _ _
    rfl rfl).1 _ rfl
  have h2 := (C5_primary_fallback_protocol nycQuery landAbsorbEnv _ _
    rfl rfl).2 _ rfl
  have h3 := h2.2.2 _ _ rfl rfl rfl
  exact ⟨h1.1, h1.2.2.1, h2.2.1, h3.2.1⟩

/-! ### The shared response cache (C9)

Modelled from the spec: the cache mechanics live in the external
`requests_cache` library; the repository code only constructs the session
with `expire_after=3600` (views.py:25).  Spec §3 (CacheEntry) and §4.2:
entries are keyed by the exact outbound request signature, hold the raw
upstream response, live for the fixed TTL, and are evicted lazily on lookup
once expired. -/

/-- Modelled from the spec: the process-wide cache state — a list of
(request signature, raw payload, storage time) entries. -/
structure CacheState (α : Type) where
  entries : List (MarineRequest × α × ℕ)

/-- The cache as initialized once at process startup: empty. -/
def emptyCache (α : Type) : CacheState α :=
  ⟨[]⟩

/-- Modelled from the spec: scan the entries for the request signature at
time `now`; an entry is served while `now < storedAt + cache_expire_after`;
an expired entry is evicted (dropped) as the lookup passes it. -/
def lookupEntries {α : Type} :
    List (MarineRequest × α × ℕ) → MarineRequest → ℕ →
      Option α × List (MarineRequest × α × ℕ)
  | [], _, _ => (none, [])
  | (k0, p, t0) :: rest, k, now =>
      if now < t0 + cache_expire_after then
        if k0 = k then (some p, (k0, p, t0) :: rest)
        else
          let r := lookupEntries rest k now
          (r.1, (k0, p, t0) :: r.2)
      else
        lookupEntries rest k now

/-- Modelled from the spec: cache lookup with lazy eviction. -/
def cache_lookup {α : Type} (c : CacheState α) (k : MarineRequest) (now : ℕ) :
    Option α × CacheState α :=
  let r := lookupEntries c.entries k now
  (r.1, ⟨r.2⟩)

/-- Modelled from the spec: one primary fetch through the cached session at
time `now`.  `upstream` is the raw payload the network would return.  The
third component counts the network calls made (0 on a cache hit, 1 on a
miss); on a miss the response is stored under the request signature. -/
def cached_fetch {α : Type} (c : CacheState α) (k : MarineRequest) (now : ℕ)
    (upstream : α) : α × CacheState α × ℕ :=
  match cache_lookup c k now with
  | (some p, c2) => (p, c2, 0)
  | (none, c2) => (upstream, ⟨(k, upstream, now) :: c2.entries⟩, 1)

/-- C9: starting from the empty cache, two fetches with the identical
request signature within the TTL of 3600 time units make exactly one
upstream network call: the first misses (one call) and stores, the second
is served from the cache (zero calls) and returns the first raw payload.
Once the TTL has passed, a lookup evicts the entry lazily and misses. -/
theorem C9_cache_single_upstream_call (α : Type) (k : MarineRequest)
    (t1 t2 : ℕ) (p1 p2 : α)
    (h1 : t1 ≤ t2) (h2 : t2 < t1 + cache_expire_after) :
    (cached_fetch (emptyCache α) k t1 p1).2.2 = 1
  ∧ (cached_fetch (cached_fetch (emptyCache α) k t1 p1).2.1 k t2 p2).2.2 = 0
  ∧ (cached_fetch (cached_fetch (emptyCache α) k t1 p1).2.1 k t2 p2).1 = p1
  ∧ (∀ t3, t1 + cache_expire_after ≤ t3 →
        (cache_lookup (cached_fetch (emptyCache α) k t1 p1).2.1 k t3).1 = none
      ∧ (cache_lookup (cached_fetch (emptyCache α) k t1 p1).2.1
           k t3).2.entries = []) := by
  have hfirst : cached_fetch (emptyCache α) k t1 p1
      = (p1, ⟨[(k, p1, t1)]⟩, 1) := by
    simp [cached_fetch, cache_lookup, lookupEntries, emptyCache]
  refine ⟨by rw [hfirst], ?_, ?_, ?_⟩
  · rw [hfirst]
    simp [cached_fetch, cache_lookup, lookupEntries, h2]
  · rw [hfirst]
    simp [cached_fetch, cache_lookup, lookupEntries, h2]
  · intro t3 h3
    rw [hfirst]
    constructor <;>
      simp [cache_lookup, lookupEntries, Nat.not_lt.mpr h3]

/-- Witness for C9: a concrete signature fetched at times 0 and 100 (within
the 3600-unit TTL) makes one network call and serves the cached payload.  At
time 3600 the entry is evicted on lookup. -/
theorem C9_cache_single_upstream_call_witness :
    (cached_fetch (emptyCache ℕ) (marine_request (.finite 1) (.finite 103))
       0 7).2.2 = 1
  ∧ (cached_fetch (cached_fetch (emptyCache ℕ)
       (marine_request (.finite 1) (.finite 103)) 0 7).2.1
       (marine_request (.finite 1) (.finite 103)) 100 8).2.2 = 0
  ∧ (cached_fetch (cached_fetch (emptyCache ℕ)
       (marine_request (.finite 1) (.finite 103)) 0 7).2.1
       (marine_request (.finite 1) (.finite 103)) 100 8).1 = 7
  ∧ (cache_lookup (cached_fetch (emptyCache ℕ)
       (marine_request (.finite 1) (.finite 103)) 0 7).2.1
       (marine_request (.finite 1) (.finite 103)) 3600).1 = none := by
  have h := C9_cache_single_upstream_call ℕ
    (marine_request (.finite 1) (.finite 103)) 0 100 7 8
    (by decide) (by decide)
  exact ⟨h.1, h.2.1, h.2.2.1, (h.2.2.2 3600 (by decide)).1⟩
